import Mathlib

/-!
Shallow embedding of the twinsights crawler and analytics merge logic.

Python cursor fields (`Query.since_id`, `Query.max_id`) dynamically hold
`None`, the sentinel strings `'undefined'` / `'finished'`, or a numeric
value (a numeric string from configuration / the database, or an `int`
assigned by the crawl loop; the two are interchangeable everywhere the
code consumes them).  They are modelled by the inductive `Cursor`.
-/

namespace Twinsights

inductive Cursor where
  | cnone
  | undefined
  | finished
  | num (n : Nat)
deriving DecidableEq, Repr

/-- `QueryMetadata` row of the crawler database (`query_metadata` table). -/
structure QueryMetadata where
  id : String
  since_id : Cursor
  max_id : Cursor
deriving DecidableEq, Repr

/-- In-memory `Query` of a crawl task. -/
structure Query where
  id : String
  text : String
  since_id : Cursor
  max_id : Cursor
deriving DecidableEq, Repr

/-- `Query.to_metadata` from `crawler/data.py`. -/
def Query.to_metadata (q : Query) : QueryMetadata :=
  ⟨q.id, q.since_id, q.max_id⟩

/--
`CrawledDataStore.restore_query_metadata` from `crawler/data.py`, for one
query.  `qm` is the persisted row found for the query id (`None` when the
id was never seen).  Returns the reconciled query together with the
freshly inserted metadata row, if any (the `session.add` on the
never-seen path).
-/
def restore_query_metadata (qm : Option QueryMetadata) (q : Query) :
    Query × Option QueryMetadata :=
  match qm with
  | some m =>
    let q1 := if q.max_id ≠ Cursor.cnone ∧ q.max_id = Cursor.undefined
              then { q with max_id := m.max_id }
              else { q with max_id := Cursor.cnone }
    let q2 := if q1.max_id ≠ Cursor.cnone ∧ q1.since_id = Cursor.undefined
              then { q1 with since_id := m.since_id }
              else { q1 with max_id := Cursor.cnone }
    (q2, none)
  | none =>
    let q1 := if q.max_id = Cursor.undefined
              then { q with max_id := Cursor.cnone } else q
    let q2 := if q1.since_id = Cursor.undefined
              then { q1 with since_id := Cursor.cnone } else q1
    (q2, some q2.to_metadata)

/-! ## Raw object store (`crawler/data.py`): `CrawledObject`, `CrawledDataStore.add` -/

inductive Api where
  | TwitterStatus
  | TwitterUser
deriving DecidableEq, Repr

/-- A row of the crawler `data` table (`CrawledObject`).  `expanded` is a
nullable boolean column; the opaque JSON document is modelled as a
string payload. -/
structure CrawledObject where
  id : String
  api : Api
  expanded : Option Bool
  document : String
  user_id : Option String
  detected_lang : Option String
deriving DecidableEq, Repr

/-- The `data` table, keyed by `CrawledObject.id`. -/
def find (s : List CrawledObject) (i : String) : Option CrawledObject :=
  s.find? (fun r => r.id == i)

/-- `session.merge(obj)`: replace the row with the object's primary key,
or insert it when absent. -/
def merge (s : List CrawledObject) (o : CrawledObject) : List CrawledObject :=
  if (s.find? (fun r => r.id == o.id)).isSome
  then s.map (fun r => if r.id == o.id then o else r)
  else s ++ [o]

/-- `CrawledDataStore.add` from `crawler/data.py`: for `TwitterUser`
objects the `expanded` flag is forced to `False` on first insert and to
the pre-existing row's flag otherwise, then the object is merged. -/
def add (s : List CrawledObject) (o : CrawledObject) : List CrawledObject :=
  if o.api = Api.TwitterUser then
    let current := find s o.id
    let o1 := { o with expanded := match current with
                                   | none => some false
                                   | some c => c.expanded }
    merge s o1
  else
    merge s o

/-- `n`-fold application of `CrawledDataStore.add` with the same object. -/
def addN : Nat → List CrawledObject → CrawledObject → List CrawledObject
  | 0, s, _ => s
  | n + 1, s, o => addN n (add s o) o

/-! ## Paginated fetcher (`crawler/twitter.py`): `TweepyCrawler` -/

/-- One fetched status, reduced to what the crawl loop consumes: its
native numeric id and whether `__process_status` stores it (`keep` is
the outcome of the language filter; a skipped status is returned before
any `db.add`/`db.commit`). -/
structure Status where
  sid : Nat
  keep : Bool
deriving DecidableEq, Repr

/-- The running `next_max_id` / `next_since_id` values inside
`TweepyCrawler.crawl`: Python `None`, the string `'finished'`, or an
`int`. -/
inductive NextVal where
  | vnone
  | finished
  | num (n : Nat)
deriving DecidableEq, Repr

def NextVal.toCursor : NextVal → Cursor
  | NextVal.vnone => Cursor.cnone
  | NextVal.finished => Cursor.finished
  | NextVal.num n => Cursor.num n

/-- First conditional of `TweepyCrawler.__update_next_and_since`.
Comparing an `int` against the string `'finished'` would raise a
`TypeError` in Python, hence the `Option`: `none` is that error. -/
def upd_max (historical : Bool) (sid : Nat) (next_max_id : NextVal) :
    Option NextVal :=
  if historical then
    match next_max_id with
    | NextVal.vnone => some (NextVal.num sid)
    | NextVal.num m => some (if sid < m then NextVal.num sid else NextVal.num m)
    | NextVal.finished => none
  else some next_max_id

/-- Second conditional of `TweepyCrawler.__update_next_and_since`. -/
def upd_since (historical : Bool) (sid : Nat) (next_since_id : NextVal) :
    Option NextVal :=
  if historical then some next_since_id
  else
    match next_since_id with
    | NextVal.vnone => some (NextVal.num sid)
    | NextVal.num m => some (if m < sid then NextVal.num sid else NextVal.num m)
    | NextVal.finished => none

/-- Final `None → 'finished'` normalisation in `__update_next_and_since`. -/
def finalize (v : NextVal) : NextVal :=
  if v = NextVal.vnone then NextVal.finished else v

/-- `TweepyCrawler.__update_next_and_since` for one status. -/
def update_next_and_since (historical : Bool) (sid : Nat)
    (next_max_id next_since_id : NextVal) : Option (NextVal × NextVal) := do
  let nm ← upd_max historical sid next_max_id
  let ns ← upd_since historical sid next_since_id
  pure (finalize nm, finalize ns)

/-- The `for status in results` loop of `TweepyCrawler.crawl`, restricted
to the cursor bookkeeping. -/
def update_fold (historical : Bool) :
    List Status → NextVal × NextVal → Option (NextVal × NextVal)
  | [], st => some st
  | s :: rest, st =>
    (update_next_and_since historical s.sid st.1 st.2).bind
      (update_fold historical rest)

/-- Minimum native id of a non-empty batch `s :: rest`. -/
def batch_min (s : Status) (rest : List Status) : Nat :=
  rest.foldl (fun a x => Nat.min a x.sid) s.sid

/-- Maximum native id of a non-empty batch `s :: rest`. -/
def batch_max (s : Status) (rest : List Status) : Nat :=
  rest.foldl (fun a x => Nat.max a x.sid) s.sid

/-- `TweepyCrawler._has_more`. -/
def has_more (historical : Bool) (q : Query) : Bool :=
  if historical then
    (q.max_id == Cursor.cnone) || (q.max_id != Cursor.finished)
  else true

/-- Observable outcome of processing one query inside
`TweepyCrawler.crawl`: the updated query, whether a fetch request was
issued, whether `update_query_metadata` ran, the number of `db.commit`
calls made while processing the query, and whether `num_processed` was
incremented. -/
structure CrawlStep where
  q : Query
  fetched : Bool
  metadata_updated : Bool
  commits : Nat
  processed : Bool
deriving DecidableEq, Repr

/-- One iteration of the query loop in `TweepyCrawler.crawl`: `results`
is the batch the API returned for this query.  A query filtered out by
`_has_more` issues no request.  `__process_status` commits once per kept
status; a further commit follows `update_query_metadata` on a non-empty
batch.  An empty batch only sets `q.max_id = 'finished'`. -/
def crawl_query (historical : Bool) (results : List Status) (q : Query) :
    Option CrawlStep :=
  if has_more historical q then
    if results.length > 0 then
      (update_fold historical results (NextVal.vnone, NextVal.vnone)).bind
        fun st =>
          let q1 := if historical then { q with max_id := st.1.toCursor }
                    else if st.2 ≠ NextVal.finished
                    then { q with since_id := st.2.toCursor }
                    else q
          some ⟨q1, true, true, (results.filter Status.keep).length + 1, true⟩
    else
      some ⟨{ q with max_id := Cursor.finished }, true, false, 0, false⟩
  else
    some ⟨q, false, false, 0, false⟩

/-- Repeated invocations of `TweepyCrawler.crawl` on one query, one
batch per invocation; returns the final query and how many fetch
requests were issued. -/
def crawl_iter (historical : Bool) (q : Query) :
    List (List Status) → Option (Query × Nat)
  | [] => some (q, 0)
  | b :: rest =>
    (crawl_query historical b q).bind fun st =>
      (crawl_iter historical st.q rest).map fun r =>
        (r.1, (if st.fetched then 1 else 0) + r.2)

/-- One `TweepyCrawler.crawl` invocation over its task's query list
(each query paired with the batch the API returns for it): the updated
queries, the total `db.commit` count, and the final `num_processed`. -/
def crawl_task (historical : Bool) :
    List (Query × List Status) → Option (List Query × Nat × Nat)
  | [] => some ([], 0, 0)
  | (q, b) :: rest =>
    (crawl_query historical b q).bind fun st =>
      (crawl_task historical rest).map fun r =>
        (st.q :: r.1, st.commits + r.2.1,
         (if st.processed then 1 else 0) + r.2.2)

/-- One member of the driver's working set in `CrawlerApp.crawl`:
whether it is presently cooling down, and its queries with their
batches. -/
structure CrawlerRun where
  in_timeout : Bool
  queries : List (Query × List Status)

/-- `db.commit` count of one round of the `while` loop in
`CrawlerApp.crawl`: each active crawler's commits, plus the single
`db.commit()` the driver issues after the `for` loop. -/
def round_commits (historical : Bool) : List CrawlerRun → Option Nat
  | [] => some 1
  | c :: rest =>
    if c.in_timeout then round_commits historical rest
    else
      (crawl_task historical c.queries).bind fun r =>
        (round_commits historical rest).map fun n => r.2.1 + n

/-! ## Error classification (`TwitterUserCrawler.crawl` in
`crawler/twitter.py`) -/

/-- `starts_with needle hay`: `needle` is a leading segment of `hay`. -/
def starts_with : List Char → List Char → Bool
  | [], _ => true
  | _ :: _, [] => false
  | a :: as, b :: bs => a == b && starts_with as bs

/-- `has_sub needle hay`: `needle` occurs contiguously in `hay`. -/
def has_sub (needle : List Char) : List Char → Bool
  | [] => starts_with needle []
  | c :: rest => starts_with needle (c :: rest) || has_sub needle rest

/-- Python's `needle in hay` on strings. -/
def str_in (needle hay : String) : Bool :=
  has_sub needle.data hay.data

inductive ErrKind where
  | auth
  | notFound
  | timeout
  | unknown
deriving DecidableEq, Repr

/-- The `except` cascade of `TwitterUserCrawler.crawl`, as a
classification of the exception's string form. -/
def classify (e : String) : ErrKind :=
  if str_in ("status code = 401") e || str_in ("Not authorized") e then
    ErrKind.auth
  else if str_in ("status code = 404") e then ErrKind.notFound
  else if str_in ("TimeoutError") e then ErrKind.timeout
  else ErrKind.unknown

/-- Outcome of the per-user loop of `TwitterUserCrawler.crawl`: how many
users were attempted and whether the process was terminated by
`exit()`. -/
structure UsersRun where
  attempted : Nat
  exited : Bool
deriving DecidableEq, Repr

/-- The `for user in ...` loop of `TwitterUserCrawler.crawl`.  Each
entry is the outcome of crawling that user: `none` on success, `some e`
when an exception with string form `e` is raised.  A classified
exception (401/Not authorized, 404, TimeoutError) is logged and the
loop continues with the next user; anything else closes the store and
calls `exit()`. -/
def crawl_users : List (Option String) → UsersRun
  | [] => ⟨0, false⟩
  | none :: rest =>
    let r := crawl_users rest
    ⟨r.attempted + 1, r.exited⟩
  | some e :: rest =>
    if classify e = ErrKind.unknown then ⟨1, true⟩
    else
      let r := crawl_users rest
      ⟨r.attempted + 1, r.exited⟩

/-! ## Normalized entity store (`analytics/data.py`): `User.update`,
`Post.update`, `AnalyticDataStore.add_or_update` -/

/-- A row of the `posts` table, with the JSON-encoded text document
modelled as a nullable string and `created_at` as a numeric instant. -/
structure Post where
  id : String
  user_id : Option String
  created_at : Nat
  text : Option String
  hash_tags : List String
  source : Option String
  is_reply : Option Bool
  favorite_count : Nat
deriving DecidableEq, Repr

/-- `Post.update` from `analytics/data.py`.  Python rebuilds
`hash_tags` as `list(set(self).union(set(other)))`; the union is
modelled as the deduplicated concatenation (same underlying set). -/
def Post.update (self other : Post) : Post :=
  { self with
    hash_tags := (self.hash_tags ++ other.hash_tags).dedup,
    text := if other.text ≠ none then other.text else self.text,
    favorite_count := Nat.max self.favorite_count other.favorite_count }

/-- The `posts` table keyed by `Post.id`. -/
def find_post (s : List Post) (i : String) : Option Post :=
  s.find? (fun r => r.id == i)

/-- `AnalyticDataStore.add_or_update` for a `Post`: insert when the id
is unseen, otherwise update the existing row in place and merge it
back. -/
def add_or_update_post (s : List Post) (obj : Post) : List Post :=
  match s.find? (fun r => r.id == obj.id) with
  | none => s ++ [obj]
  | some r => s.map (fun x => if x.id == obj.id then r.update obj else x)

/-- A row of the `users` table.  `friends` is a nullable JSON list of
native friend ids; the metadata map is an association list. -/
structure User where
  id : String
  last_updated : Nat
  name : Option String
  screen_name : Option String
  user_metadata : Option (List (String × String))
  friends : Option (List Nat)
  friend_count : Option Nat
  follower_count : Option Nat
deriving DecidableEq, Repr

/-- Python `dict.update`: later keys overwrite earlier ones, fresh keys
are appended. -/
def dict_update (d upd : List (String × String)) : List (String × String) :=
  upd.foldl
    (fun acc kv =>
      if (acc.find? (fun x => x.1 == kv.1)).isSome
      then acc.map (fun x => if x.1 == kv.1 then kv else x)
      else acc ++ [kv])
    d

/-- `User.update` from `analytics/data.py`; `now` stands for
`func.current_timestamp()`. -/
def User.update (self other : User) (now : Nat) : User :=
  let merged0 : List (String × String) :=
    match self.user_metadata with
    | none => []
    | some m => dict_update [] m
  let merged :=
    match other.user_metadata with
    | none => merged0
    | some m => dict_update merged0 m
  { self with
    friends := if self.friends = none then other.friends else self.friends,
    friend_count :=
      if self.friend_count = none ∨ self.friend_count ≠ other.friend_count
      then other.friend_count else self.friend_count,
    follower_count :=
      if self.follower_count = none ∨ self.follower_count ≠ other.follower_count
      then other.follower_count else self.follower_count,
    last_updated := now,
    user_metadata := some merged }

/-- The spec's stated text rule for the Post merge, written from its
words: "text ← incoming if non-empty else existing".  Compared against
`Post.update`, which tests `is not None` instead. -/
def spec_text_rule (selfT otherT : Option String) : Option String :=
  match otherT with
  | some t => if t ≠ "" then some t else selfT
  | none => selfT

/-- The spec's stated friends rule for the User merge, written from its
words: "friends list ← existing if already non-empty, else incoming".
Compared against `User.update`, which tests `is None` instead. -/
def spec_friends_rule (selfF otherF : Option (List Nat)) :
    Option (List Nat) :=
  match selfF with
  | some l => if l ≠ [] then some l else otherF
  | none => otherF

/-! ## Store lemmas -/

theorem replace_idem (o x : CrawledObject) :
    (if (if x.id == o.id then o else x).id == o.id then o
     else if x.id == o.id then o else x)
      = if x.id == o.id then o else x := by
  by_cases hx : (x.id == o.id) = true
  · rw [if_pos hx, if_pos (by simp)]
  · rw [if_neg hx, if_neg hx]

theorem find_map_replace (s : List CrawledObject) (o : CrawledObject) :
    (s.map (fun r => if r.id == o.id then o else r)).find?
        (fun r => r.id == o.id)
      = if (s.find? (fun r => r.id == o.id)).isSome then some o else none := by
  induction s with
  | nil => rfl
  | cons r rest ih =>
    by_cases h : (r.id == o.id) = true
    · have hl : List.find? (fun r' => r'.id == o.id)
          (o :: rest.map (fun r' => if r'.id == o.id then o else r'))
            = some o :=
        List.find?_cons_of_pos _ (by simp)
      have hr : List.find? (fun r' => r'.id == o.id) (r :: rest) = some r :=
        List.find?_cons_of_pos _ h
      rw [List.map_cons, if_pos h, hl, hr]
      rfl
    · have hl : List.find? (fun r' => r'.id == o.id)
          (r :: rest.map (fun r' => if r'.id == o.id then o else r'))
            = List.find? (fun r' => r'.id == o.id)
                (rest.map (fun r' => if r'.id == o.id then o else r')) :=
        List.find?_cons_of_neg _ h
      have hr : List.find? (fun r' => r'.id == o.id) (r :: rest)
          = List.find? (fun r' => r'.id == o.id) rest :=
        List.find?_cons_of_neg _ h
      rw [List.map_cons, if_neg h, hl, hr, ih]

theorem find_merge (s : List CrawledObject) (o : CrawledObject) :
    find (merge s o) o.id = some o := by
  unfold find merge
  by_cases h : (s.find? (fun r => r.id == o.id)).isSome = true
  · rw [if_pos h, find_map_replace, if_pos h]
  · have hn : s.find? (fun r => r.id == o.id) = none := by
      cases hf : s.find? (fun r => r.id == o.id) with
      | none => rfl
      | some v => rw [hf] at h; simp at h
    rw [if_neg h, List.find?_append, hn]
    have ho : List.find? (fun r' => r'.id == o.id) [o] = some o :=
      List.find?_cons_of_pos _ (by simp)
    rw [Option.none_or, ho]

theorem map_replace_self (s : List CrawledObject) (o : CrawledObject) :
    (merge s o).map (fun r => if r.id == o.id then o else r) = merge s o := by
  unfold merge
  by_cases h : (s.find? (fun r => r.id == o.id)).isSome = true
  · rw [if_pos h, List.map_map]
    exact List.map_congr_left fun x _ => replace_idem o x
  · have hn : s.find? (fun r => r.id == o.id) = none := by
      cases hf : s.find? (fun r => r.id == o.id) with
      | none => rfl
      | some v => rw [hf] at h; simp at h
    have hall := List.find?_eq_none.mp hn
    rw [if_neg h, List.map_append]
    have h1 : s.map (fun r => if r.id == o.id then o else r) = s := by
      have h1a : s.map (fun r => if r.id == o.id then o else r) = s.map id :=
        List.map_congr_left fun x hx => by rw [if_neg (hall x hx)]; rfl
      rw [h1a, List.map_id]
    have h2 : [o].map (fun r => if r.id == o.id then o else r) = [o] := by
      simp only [List.map_cons, List.map_nil]
      rw [if_pos (by simp)]
    rw [h1, h2]

theorem merge_merge (s : List CrawledObject) (o : CrawledObject) :
    merge (merge s o) o = merge s o := by
  have hsome : ((merge s o).find? (fun r => r.id == o.id)).isSome = true := by
    have hf : (merge s o).find? (fun r => r.id == o.id) = some o :=
      find_merge s o
    rw [hf]
    rfl
  show (if ((merge s o).find? (fun r => r.id == o.id)).isSome
        then (merge s o).map (fun r => if r.id == o.id then o else r)
        else merge s o ++ [o]) = merge s o
  rw [if_pos hsome]
  exact map_replace_self s o

theorem add_add (s : List CrawledObject) (o : CrawledObject) :
    add (add s o) o = add s o := by
  by_cases ha : o.api = Api.TwitterUser
  · cases hc : find s o.id with
    | none =>
      have h1 : add s o = merge s { o with expanded := some false } := by
        unfold add
        rw [if_pos ha, hc]
      have hf : find (merge s { o with expanded := some false }) o.id
          = some { o with expanded := some false } :=
        find_merge s { o with expanded := some false }
      rw [h1]
      unfold add
      rw [if_pos ha, hf]
      exact merge_merge s { o with expanded := some false }
    | some c =>
      have h1 : add s o = merge s { o with expanded := c.expanded } := by
        unfold add
        rw [if_pos ha, hc]
      have hf : find (merge s { o with expanded := c.expanded }) o.id
          = some { o with expanded := c.expanded } :=
        find_merge s { o with expanded := c.expanded }
      rw [h1]
      unfold add
      rw [if_pos ha, hf]
      exact merge_merge s { o with expanded := c.expanded }
  · unfold add
    rw [if_neg ha, if_neg ha]
    exact merge_merge s o

/-! ## Cursor-fold lemmas -/

theorem update_fold_hist (rest : List Status) (m : Nat) :
    update_fold true rest (NextVal.num m, NextVal.finished)
      = some (NextVal.num (rest.foldl (fun a x => Nat.min a x.sid) m),
              NextVal.finished) := by
  induction rest generalizing m with
  | nil => rfl
  | cons s r ih =>
    have hstep : update_next_and_since true s.sid (NextVal.num m)
        NextVal.finished
          = some (NextVal.num (Nat.min m s.sid), NextVal.finished) := by
      rcases Nat.lt_or_ge s.sid m with h | h
      · simp [update_next_and_since, upd_max, upd_since, finalize, h,
          Nat.min_eq_right (Nat.le_of_lt h)]
      · simp [update_next_and_since, upd_max, upd_since, finalize,
          Nat.not_lt.mpr h, Nat.min_eq_left h]
    simp only [update_fold, hstep, Option.bind_some]
    exact ih (Nat.min m s.sid)

theorem update_fold_hist_start (s : Status) (rest : List Status) :
    update_fold true (s :: rest) (NextVal.vnone, NextVal.vnone)
      = some (NextVal.num (batch_min s rest), NextVal.finished) := by
  have hstep : update_next_and_since true s.sid NextVal.vnone NextVal.vnone
      = some (NextVal.num s.sid, NextVal.finished) := by
    simp [update_next_and_since, upd_max, upd_since, finalize]
  simp only [update_fold, hstep, Option.bind_some]
  exact update_fold_hist rest s.sid

theorem update_fold_incr (rest : List Status) (m : Nat) :
    update_fold false rest (NextVal.finished, NextVal.num m)
      = some (NextVal.finished,
              NextVal.num (rest.foldl (fun a x => Nat.max a x.sid) m)) := by
  induction rest generalizing m with
  | nil => rfl
  | cons s r ih =>
    have hstep : update_next_and_since false s.sid NextVal.finished
        (NextVal.num m)
          = some (NextVal.finished, NextVal.num (Nat.max m s.sid)) := by
      rcases Nat.lt_or_ge m s.sid with h | h
      · simp [update_next_and_since, upd_max, upd_since, finalize, h,
          Nat.max_eq_right (Nat.le_of_lt h)]
      · simp [update_next_and_since, upd_max, upd_since, finalize,
          Nat.not_lt.mpr h, Nat.max_eq_left h]
    simp only [update_fold, hstep, Option.bind_some]
    exact ih (Nat.max m s.sid)

theorem update_fold_incr_start (s : Status) (rest : List Status) :
    update_fold false (s :: rest) (NextVal.vnone, NextVal.vnone)
      = some (NextVal.finished, NextVal.num (batch_max s rest)) := by
  have hstep : update_next_and_since false s.sid NextVal.vnone NextVal.vnone
      = some (NextVal.finished, NextVal.num s.sid) := by
    simp [update_next_and_since, upd_max, upd_since, finalize]
  simp only [update_fold, hstep, Option.bind_some]
  exact update_fold_incr rest s.sid

/-- A historical fetch with a non-empty batch advances `max_id` to the
batch minimum, updates the metadata, and commits once per kept status
plus once for the metadata. -/
theorem crawl_query_hist_cons (q : Query) (s : Status) (rest : List Status)
    (h : has_more true q = true) :
    crawl_query true (s :: rest) q
      = some ⟨{ q with max_id := Cursor.num (batch_min s rest) }, true, true,
              ((s :: rest).filter Status.keep).length + 1, true⟩ := by
  unfold crawl_query
  rw [if_pos h, if_pos (by simp), update_fold_hist_start]
  rfl

/-- An incremental fetch with a non-empty batch advances `since_id` to
the batch maximum. -/
theorem crawl_query_incr_cons (q : Query) (s : Status) (rest : List Status) :
    crawl_query false (s :: rest) q
      = some ⟨{ q with since_id := Cursor.num (batch_max s rest) }, true, true,
              ((s :: rest).filter Status.keep).length + 1, true⟩ := by
  unfold crawl_query
  rw [if_pos (by rfl), if_pos (by simp), update_fold_incr_start]
  rfl

/-- An empty batch on a fetched query sets `max_id` (whatever the
direction) to `'finished'`, leaves `since_id` alone, updates no
metadata and commits nothing. -/
theorem crawl_query_empty (historical : Bool) (q : Query)
    (h : has_more historical q = true) :
    crawl_query historical [] q
      = some ⟨{ q with max_id := Cursor.finished }, true, false, 0, false⟩ := by
  unfold crawl_query
  rw [if_pos h, if_neg (by simp)]

/-- A query filtered out by `_has_more` is untouched: no fetch, no
metadata update, no commit. -/
theorem crawl_query_skip (historical : Bool) (b : List Status) (q : Query)
    (h : has_more historical q = false) :
    crawl_query historical b q = some ⟨q, false, false, 0, false⟩ := by
  unfold crawl_query
  rw [if_neg (by rw [h]; exact Bool.false_ne_true)]

/-- When a persisted record with a non-null `max_id` exists and both
task-supplied fields are the `'undefined'` sentinel, the restore takes
the persisted cursor pair. -/
theorem restore_both_undefined (m : QueryMetadata) (q : Query)
    (h1 : q.max_id = Cursor.undefined) (h2 : q.since_id = Cursor.undefined)
    (h3 : m.max_id ≠ Cursor.cnone) :
    (restore_query_metadata (some m) q).1
      = ⟨q.id, q.text, m.since_id, m.max_id⟩ := by
  unfold restore_query_metadata
  simp [h1, h2, h3]

/-! ## Claim theorems -/

/-- C1 counterexample: with a persisted record `(since_id=5, max_id=9)`
and a task definition carrying the explicit non-sentinel cursor
`max_id=100`, the restore does not keep the task's value (the claim says
an explicit non-sentinel cursor overrides the persisted value): the
restored `max_id` is nulled out instead. -/
theorem C1_counterexample :
    (restore_query_metadata (some ⟨"q1", Cursor.num 5, Cursor.num 9⟩)
        ⟨"q1", "hello", Cursor.undefined, Cursor.num 100⟩).1.max_id
      ≠ Cursor.num 100 := by decide

/-- C1 (amended): when a persisted record exists, the restore replaces
the in-memory cursor pair with the persisted pair exactly when the
task's `max_id` is the sentinel `'undefined'`, the persisted `max_id`
is non-null, and the task's `since_id` is `'undefined'`; in every other
case the restored `max_id` is reset to null and `since_id` is left as
the task supplied it.  In particular, with persisted `(S, M)`, `M`
non-null, and both task fields `'undefined'`, the restored cursor is
`(S, M)`; an explicit non-sentinel task cursor is discarded, not kept;
and a persisted `'finished'` survives only when both task fields are
`'undefined'`. -/
theorem C1_restore_precedence (m : QueryMetadata) (q : Query) :
    restore_query_metadata (some m) q
      = (if q.max_id = Cursor.undefined ∧ m.max_id ≠ Cursor.cnone ∧
            q.since_id = Cursor.undefined
         then (⟨q.id, q.text, m.since_id, m.max_id⟩ : Query)
         else ⟨q.id, q.text, q.since_id, Cursor.cnone⟩,
         none) := by
  unfold restore_query_metadata
  by_cases h1 : q.max_id = Cursor.undefined
  · by_cases h2 : m.max_id = Cursor.cnone
    · simp [h1, h2]
    · by_cases h3 : q.since_id = Cursor.undefined
      · simp [h1, h2, h3]
      · simp [h1, h2, h3]
  · simp [h1]

/-- C2 counterexample: upserting a fresh `TwitterUser` object that the
caller already marked `expanded = true` does not insert it as-is (the
claim's "unless the caller supplies an already-expanded object"): the
stored flag is forced to `false`. -/
theorem C2_counterexample :
    find (add [] ⟨"u1", Api.TwitterUser, some true, "d", none, none⟩) "u1"
      ≠ some ⟨"u1", Api.TwitterUser, some true, "d", none, none⟩ := by decide

/-- C2 (amended): for a `TwitterUser` object, a fresh insert stores
`expanded = false` regardless of the incoming flag, and an upsert over
an existing row preserves the row's flag whatever the incoming flag
was; for any other api kind the incoming object is merged as-is. -/
theorem C2_upsert_expanded (s : List CrawledObject) (o : CrawledObject) :
    (o.api = Api.TwitterUser → find s o.id = none →
      find (add s o) o.id = some { o with expanded := some false })
    ∧ (∀ c, o.api = Api.TwitterUser → find s o.id = some c →
      find (add s o) o.id = some { o with expanded := c.expanded })
    ∧ (o.api ≠ Api.TwitterUser → find (add s o) o.id = some o) := by
  refine ⟨?_, ?_, ?_⟩
  · intro ha hc
    unfold add
    rw [if_pos ha, hc]
    exact find_merge s { o with expanded := some false }
  · intro c ha hc
    unfold add
    rw [if_pos ha, hc]
    exact find_merge s { o with expanded := c.expanded }
  · intro ha
    unfold add
    rw [if_neg ha]
    exact find_merge s o

/-- C2 witness: re-fetching the user `u1`, already stored with
`expanded = true`, with an incoming snapshot carrying `expanded =
false`, preserves the stored `true` flag. -/
theorem C2_upsert_expanded_witness :
    find (add [⟨"u1", Api.TwitterUser, some true, "d0", none, none⟩]
        ⟨"u1", Api.TwitterUser, some false, "d1", none, none⟩) "u1"
      = some ⟨"u1", Api.TwitterUser, some true, "d1", none, none⟩ :=
  (C2_upsert_expanded _ _).2.1
    ⟨"u1", Api.TwitterUser, some true, "d0", none, none⟩ rfl (by decide)

/-- C7: raw ingestion is idempotent: applying `CrawledDataStore.add`
`n + 1` times with the same object leaves the store exactly as one
application does (so in particular the stored row is identical, with
the `expanded` flag fixed by the very first insert). -/
theorem C7_upsert_idempotent (s : List CrawledObject) (o : CrawledObject)
    (n : Nat) :
    addN (n + 1) s o = add s o := by
  induction n generalizing s with
  | zero => rfl
  | succ k ih =>
    have h1 : addN (k + 1 + 1) s o = addN (k + 1) (add s o) o := rfl
    rw [h1, ih (add s o), add_add]

/-- C3 counterexample: an incremental (since_id-direction) query whose
fetch returns zero results does not get its since_id cursor set to
`'finished'` as the claim states: the code leaves `since_id` untouched
(here `num 7`) and sets `max_id` — the other direction's cursor — to
`'finished'` instead. -/
theorem C3_counterexample :
    (crawl_query false [] ⟨"q", "t", Cursor.num 7, Cursor.undefined⟩).map
        (fun st => (st.q.since_id, st.q.max_id))
      = some (Cursor.num 7, Cursor.finished)
    ∧ (Cursor.num 7 : Cursor) ≠ Cursor.finished := by decide

/-- C3 (amended): after a non-empty batch the next cursor is the batch
minimum native id for a historical crawl (`max_id`) and the batch
maximum for an incremental crawl (`since_id`); a batch with zero
results sets `max_id` to `'finished'` in both directions, leaving
`since_id` untouched even when the crawl is incremental. -/
theorem C3_next_cursor (q : Query) (s : Status) (rest : List Status) :
    (has_more true q = true →
      crawl_query true (s :: rest) q
        = some ⟨{ q with max_id := Cursor.num (batch_min s rest) }, true, true,
                ((s :: rest).filter Status.keep).length + 1, true⟩)
    ∧ (crawl_query false (s :: rest) q
        = some ⟨{ q with since_id := Cursor.num (batch_max s rest) }, true,
                true, ((s :: rest).filter Status.keep).length + 1, true⟩)
    ∧ (has_more true q = true →
      crawl_query true [] q
        = some ⟨{ q with max_id := Cursor.finished }, true, false, 0, false⟩)
    ∧ (crawl_query false [] q
        = some ⟨{ q with max_id := Cursor.finished }, true, false, 0, false⟩) :=
  ⟨fun h => crawl_query_hist_cons q s rest h,
   crawl_query_incr_cons q s rest,
   fun h => crawl_query_empty true q h,
   crawl_query_empty false q rfl⟩

/-- C3 witness: a historical fetch of the batch `[5, 3]` moves `max_id`
to the minimum observed id `3`. -/
theorem C3_next_cursor_witness :
    crawl_query true [⟨5, true⟩, ⟨3, false⟩]
        ⟨"q", "t", Cursor.undefined, Cursor.undefined⟩
      = some ⟨⟨"q", "t", Cursor.undefined, Cursor.num 3⟩, true, true, 2,
              true⟩ :=
  (C3_next_cursor ⟨"q", "t", Cursor.undefined, Cursor.undefined⟩ ⟨5, true⟩
    [⟨3, false⟩]).1 (by decide)

/-- C5 counterexample: a round over one crawler with one query whose
batch holds a single stored status commits three times (once inside
`__process_status`, once after `update_query_metadata`, once at the end
of the driver round), not exactly once as the claim states. -/
theorem C5_counterexample :
    round_commits false
        [⟨false,
          [(⟨"q", "t", Cursor.undefined, Cursor.undefined⟩, [⟨1, true⟩])]⟩]
      = some 3 ∧ (3 : Nat) ≠ 1 := by decide

/-- C5 (amended): the driver does commit once at the end of each round,
but in addition the crawler commits during the round: a fetched query
with a non-empty batch contributes one commit per stored status plus
one commit after its metadata update, so the store is committed per
fetched item as well. -/
theorem C5_commit_granularity (historical : Bool)
    (qs : List (Query × List Status)) (q : Query) (b : List Status) :
    (∀ r, crawl_task historical qs = some r →
      round_commits historical [⟨false, qs⟩] = some (r.2.1 + 1))
    ∧ (has_more historical q = true → b ≠ [] →
      ∃ st, crawl_query historical b q = some st
        ∧ st.commits = (b.filter Status.keep).length + 1) := by
  constructor
  · intro r hr
    have hu : round_commits historical [⟨false, qs⟩]
        = (crawl_task historical qs).bind fun r' =>
            (round_commits historical []).map fun n => r'.2.1 + n := rfl
    rw [hu, hr]
    rfl
  · intro hm hb
    cases b with
    | nil => exact absurd rfl hb
    | cons s rest =>
      cases historical with
      | false => exact ⟨_, crawl_query_incr_cons q s rest, rfl⟩
      | true => exact ⟨_, crawl_query_hist_cons q s rest hm, rfl⟩

/-- C5 witness: the single-crawler round of the counterexample is the
crawler's two commits plus the driver's one. -/
theorem C5_commit_granularity_witness :
    round_commits false
        [⟨false,
          [(⟨"q", "t", Cursor.undefined, Cursor.undefined⟩, [⟨1, true⟩])]⟩]
      = some (2 + 1) :=
  (C5_commit_granularity false
      [(⟨"q", "t", Cursor.undefined, Cursor.undefined⟩, [⟨1, true⟩])]
      ⟨"q", "t", Cursor.undefined, Cursor.undefined⟩ [⟨1, true⟩]).1
    ([⟨"q", "t", Cursor.num 1, Cursor.undefined⟩], 2, 1) (by decide)

/-- C6 counterexample: the `'finished'` transition does not survive a
later run.  Run 1: the historical query with persisted cursor `9` gets
an empty page — its in-memory `max_id` becomes `'finished'` but the
metadata row is not updated, so the persisted `max_id` stays `9`.
Run 2: the task query (both fields `'undefined'`) is restored against
the persisted record and gets back the numeric cursor `9`, not
`'finished'`, and the next crawl invocation issues a fetch request for
that query — contradicting "in every subsequent crawl invocation no
fetch request is ever issued" and "never re-opened by a later run". -/
theorem C6_counterexample :
    (crawl_query true [] ⟨"q1", "t", Cursor.undefined, Cursor.num 9⟩).map
        (fun st => (st.q.max_id, st.metadata_updated))
      = some (Cursor.finished, false)
    ∧ (restore_query_metadata (some ⟨"q1", Cursor.cnone, Cursor.num 9⟩)
          ⟨"q1", "t", Cursor.undefined, Cursor.undefined⟩).1.max_id
      = Cursor.num 9
    ∧ (crawl_query true [⟨5, true⟩]
          (restore_query_metadata (some ⟨"q1", Cursor.cnone, Cursor.num 9⟩)
            ⟨"q1", "t", Cursor.undefined, Cursor.undefined⟩).1).map
        CrawlStep.fetched
      = some true := by decide

/-- C6 (amended): within one process, one empty page turns a historical
query's `max_id` into `'finished'`, and once it is `'finished'` any
number of subsequent `crawl` invocations issue zero fetch requests for
that query and leave it unchanged — in-process, `'finished'` is
terminal.  Across runs it is not: the empty-page transition is never
persisted, so when the persisted `max_id` is still a numeric value and
the task supplies `'undefined'` cursors, the next run's restore
reinstates the numeric cursor and a crawl invocation issues a fetch
for the query again. -/
theorem C6_finished_terminal (q : Query) (bs : List (List Status))
    (m : QueryMetadata) (q0 : Query) (b : List Status) :
    (has_more true q = true →
      crawl_query true [] q
        = some ⟨{ q with max_id := Cursor.finished }, true, false, 0, false⟩)
    ∧ (q.max_id = Cursor.finished →
      crawl_iter true q bs = some (q, 0))
    ∧ (∀ n, m.max_id = Cursor.num n → q0.max_id = Cursor.undefined →
      q0.since_id = Cursor.undefined →
      (restore_query_metadata (some m) q0).1.max_id = Cursor.num n
      ∧ (crawl_query true b (restore_query_metadata (some m) q0).1).map
          CrawlStep.fetched = some true) := by
  refine ⟨crawl_query_empty true q, ?_, ?_⟩
  · intro hq
    induction bs with
    | nil => rfl
    | cons b' rest ih =>
      have hm : has_more true q = false := by
        unfold has_more
        rw [hq]
        rfl
      have hstep := crawl_query_skip true b' q hm
      have hu : crawl_iter true q (b' :: rest)
          = (crawl_query true b' q).bind fun st =>
              (crawl_iter true st.q rest).map fun r =>
                (r.1, (if st.fetched then 1 else 0) + r.2) := rfl
      rw [hu, hstep, Option.some_bind, ih]
      rfl
  · intro n hmn h0max h0since
    have hr := restore_both_undefined m q0 h0max h0since
      (by rw [hmn]; exact fun h => Cursor.noConfusion h)
    have hq' : (restore_query_metadata (some m) q0).1.max_id
        = Cursor.num n := by
      rw [hr]
      exact hmn
    have hhm : has_more true (restore_query_metadata (some m) q0).1
        = true := by
      unfold has_more
      rw [hq']
      rfl
    refine ⟨hq', ?_⟩
    cases b with
    | nil =>
      rw [crawl_query_empty true _ hhm]
      rfl
    | cons s rest =>
      rw [crawl_query_hist_cons _ s rest hhm]
      rfl

/-- C6 witness: a query with `max_id = 'finished'` survives two further
crawl invocations unfetched and unchanged; and after a restart, the
persisted numeric cursor `9` is restored over the task's `'undefined'`
sentinels and the next crawl invocation fetches the query again. -/
theorem C6_finished_terminal_witness :
    crawl_iter true ⟨"q", "t", Cursor.num 4, Cursor.finished⟩
        [[⟨5, true⟩], []]
      = some (⟨"q", "t", Cursor.num 4, Cursor.finished⟩, 0)
    ∧ ((restore_query_metadata (some ⟨"q1", Cursor.cnone, Cursor.num 9⟩)
          ⟨"q1", "t", Cursor.undefined, Cursor.undefined⟩).1.max_id
        = Cursor.num 9
      ∧ (crawl_query true [⟨5, true⟩]
            (restore_query_metadata (some ⟨"q1", Cursor.cnone, Cursor.num 9⟩)
              ⟨"q1", "t", Cursor.undefined, Cursor.undefined⟩).1).map
          CrawlStep.fetched = some true) :=
  ⟨(C6_finished_terminal ⟨"q", "t", Cursor.num 4, Cursor.finished⟩
      [[⟨5, true⟩], []] ⟨"q1", Cursor.cnone, Cursor.num 9⟩
      ⟨"q1", "t", Cursor.undefined, Cursor.undefined⟩ [⟨5, true⟩]).2.1
     (by decide),
   (C6_finished_terminal ⟨"q", "t", Cursor.num 4, Cursor.finished⟩
      [[⟨5, true⟩], []] ⟨"q1", Cursor.cnone, Cursor.num 9⟩
      ⟨"q1", "t", Cursor.undefined, Cursor.undefined⟩ [⟨5, true⟩]).2.2 9
     (by decide) (by decide) (by decide)⟩

/-- C10: a fetch that returns an empty batch never reaches
`update_query_metadata` — the `'finished'` transition stays in memory
only; conversely, whenever the metadata row was updated during a
query's processing, the batch was non-empty. -/
theorem C10_no_metadata_on_empty (historical : Bool) (q : Query) :
    (∃ st, crawl_query historical [] q = some st
      ∧ st.metadata_updated = false)
    ∧ (∀ b st, crawl_query historical b q = some st →
      st.metadata_updated = true → b ≠ []) := by
  constructor
  · by_cases h : has_more historical q = true
    · exact ⟨_, crawl_query_empty historical q h, rfl⟩
    · exact ⟨_, crawl_query_skip historical [] q (by
        cases hh : has_more historical q
        · rfl
        · exact absurd hh h), rfl⟩
  · intro b st hc hm
    cases b with
    | cons s rest => exact List.cons_ne_nil s rest
    | nil =>
      intro _
      by_cases h : has_more historical q = true
      · rw [crawl_query_empty historical q h] at hc
        cases hc
        cases hm
      · have hf : has_more historical q = false := by
          cases hh : has_more historical q
          · rfl
          · exact absurd hh h
        rw [crawl_query_skip historical [] q hf] at hc
        cases hc
        cases hm

/-- C10 witness: with a non-empty batch the metadata is updated, and
the theorem then certifies the batch non-empty; the empty-batch
invocation leaves the metadata untouched. -/
theorem C10_no_metadata_on_empty_witness :
    ([⟨1, true⟩] : List Status) ≠ [] :=
  (C10_no_metadata_on_empty false
      ⟨"q", "t", Cursor.undefined, Cursor.undefined⟩).2 [⟨1, true⟩]
    ⟨⟨"q", "t", Cursor.num 1, Cursor.undefined⟩, true, true, 2, true⟩
    (by decide) (by decide)

/-- C9: inside the user-timeline crawl loop, any failure classified as
authorization (401/Not authorized), not-found (404) or timeout never
aborts the remaining work: when every raised error is so classified the
loop attempts every user and returns normally (so sibling tasks keep
running); and the loop terminates the process only when some raised
error classifies as unknown. -/
theorem C9_error_isolation (users : List (Option String)) :
    ((∀ e, some e ∈ users → classify e ≠ ErrKind.unknown) →
      crawl_users users = ⟨users.length, false⟩)
    ∧ ((crawl_users users).exited = true →
      ∃ e, some e ∈ users ∧ classify e = ErrKind.unknown) := by
  induction users with
  | nil =>
    constructor
    · intro _
      rfl
    · intro h
      exact absurd h (by decide)
  | cons u rest ih =>
    constructor
    · intro h
      cases u with
      | none =>
        have hr := ih.1 (fun e he => h e (List.mem_cons_of_mem _ he))
        have hu : crawl_users (none :: rest)
            = ⟨(crawl_users rest).attempted + 1, (crawl_users rest).exited⟩ :=
          rfl
        rw [hu, hr]
        rfl
      | some e =>
        have hne := h e (List.mem_cons_self _ _)
        have hu : crawl_users (some e :: rest)
            = if classify e = ErrKind.unknown then ⟨1, true⟩
              else ⟨(crawl_users rest).attempted + 1,
                    (crawl_users rest).exited⟩ := rfl
        rw [hu, if_neg hne,
          ih.1 (fun e' he' => h e' (List.mem_cons_of_mem _ he'))]
        rfl
    · intro hex
      cases u with
      | none =>
        have hex' : (crawl_users rest).exited = true := hex
        obtain ⟨e, he, hc⟩ := ih.2 hex'
        exact ⟨e, List.mem_cons_of_mem _ he, hc⟩
      | some e =>
        by_cases hcl : classify e = ErrKind.unknown
        · exact ⟨e, List.mem_cons_self _ _, hcl⟩
        · have hu : crawl_users (some e :: rest)
              = ⟨(crawl_users rest).attempted + 1,
                 (crawl_users rest).exited⟩ := by
            rw [show crawl_users (some e :: rest)
                = if classify e = ErrKind.unknown then ⟨1, true⟩
                  else ⟨(crawl_users rest).attempted + 1,
                        (crawl_users rest).exited⟩ from rfl, if_neg hcl]
          rw [hu] at hex
          obtain ⟨e', he', hc'⟩ := ih.2 hex
          exact ⟨e', List.mem_cons_of_mem _ he', hc'⟩

/-- C9 witness: a run whose two failures are a timeout and a 404
attempts all three users and does not exit. -/
theorem C9_error_isolation_witness :
    crawl_users
        [none, some ("x TimeoutError y"), some ("err status code = 404 z")]
      = ⟨3, false⟩ :=
  (C9_error_isolation _).1 (by
    intro e he
    simp only [List.mem_cons, List.not_mem_nil, or_false] at he
    rcases he with he | he | he
    · exact Option.noConfusion he
    · injection he with h
      subst h
      decide
    · injection he with h
      subst h
      decide)

/-- C4 counterexample: an incoming `Post` snapshot whose text is the
empty (but non-null) document replaces a non-empty existing text, while
the claim's rule ("incoming if non-empty, else existing") would keep
the existing text — the code tests `is not None`, not non-emptiness. -/
theorem C4_counterexample :
    (Post.update ⟨"p", none, 0, some ("hello"), ["a"], none, none, 5⟩
        ⟨"p", none, 0, some (""), ["b"], none, none, 3⟩).text
      ≠ spec_text_rule (some ("hello")) (some ("")) := by decide

/-- C4 (amended): merging two `Post` snapshots of the same id unions
the hashtag sets, keeps the maximum `favorite_count`, and takes the
incoming text whenever it is non-null (even when empty), falling back
to the existing text only for a null incoming text.  The claim's
concrete scenario holds: ingesting `favorite_count=5, hashtags={a,b}`
then `favorite_count=3, hashtags={b,c}` stores `favorite_count=5,
hashtags={a,b,c}`. -/
theorem C4_post_merge (p o : Post) :
    (∀ x, x ∈ (Post.update p o).hash_tags
      ↔ x ∈ p.hash_tags ∨ x ∈ o.hash_tags)
    ∧ (Post.update p o).text = (if o.text = none then p.text else o.text)
    ∧ (Post.update p o).favorite_count
        = Nat.max p.favorite_count o.favorite_count
    ∧ (find_post (add_or_update_post (add_or_update_post []
          ⟨"P", none, 0, some ("t1"), ["a", "b"], none, none, 5⟩)
          ⟨"P", none, 0, some ("t2"), ["b", "c"], none, none, 3⟩) ("P")).map
        (fun r => (r.favorite_count, r.hash_tags.toFinset))
      = some (5, ({"a", "b", "c"} : Finset String)) := by
  refine ⟨?_, ?_, ?_, ?_⟩
  · intro x
    show x ∈ (p.hash_tags ++ o.hash_tags).dedup ↔ _
    rw [List.mem_dedup, List.mem_append]
  · show (if o.text ≠ none then o.text else p.text) = _
    by_cases h : o.text = none
    · rw [if_neg (not_not_intro h), if_pos h]
    · rw [if_pos h, if_neg h]
  · rfl
  · decide

/-- C8 counterexample: a stored `User` whose friends list is present
but empty keeps the empty list against an incoming populated one, while
the claim's rule ("existing if already non-empty, else incoming") would
take the incoming list — the code tests `is None`, not emptiness. -/
theorem C8_counterexample :
    (User.update ⟨"u", 0, none, none, none, some [], none, none⟩
        ⟨"u", 0, none, none, none, some [7], none, none⟩ 1).friends
      ≠ spec_friends_rule (some []) (some [7]) := by decide

/-- C8 (amended): the merge keeps the existing friends list whenever it
is non-null — even when empty — and takes the incoming list only when
the existing one is null.  In particular a populated friends list is
never overwritten by a snapshot with `friends = null`. -/
theorem C8_friends_merge (u v : User) (now : Nat) :
    (u.friends ≠ none → (User.update u v now).friends = u.friends)
    ∧ (u.friends = none → (User.update u v now).friends = v.friends) := by
  constructor
  · intro h
    show (if u.friends = none then v.friends else u.friends) = u.friends
    rw [if_neg h]
  · intro h
    show (if u.friends = none then v.friends else u.friends) = v.friends
    rw [if_pos h]

/-- C8 witness: the claim's own instance — a user with populated
friends `[1, 2]` merged with a snapshot whose friends field is null
retains `[1, 2]`. -/
theorem C8_friends_merge_witness :
    (User.update ⟨"u", 0, none, none, none, some [1, 2], none, none⟩
        ⟨"u", 5, none, none, none, none, some 3, none⟩ 9).friends
      = some [1, 2] :=
  (C8_friends_merge ⟨"u", 0, none, none, none, some [1, 2], none, none⟩
      ⟨"u", 5, none, none, none, none, some 3, none⟩ 9).1 (by decide)

end Twinsights
